import Mathlib

/-!
Verification development for the Map Earth repository (sphere picking,
landmark drawing editor, history, and persistence glue).

The definitions below are shallow embeddings of the JavaScript source in
`src/app/layout.jsx` (the main page variant) and `src/unnamed/part_002`
(the near-identical second page variant).  Canvas snapshots, bitmaps and
encoded payloads are modelled by opaque identifiers (`Nat`); JavaScript
numbers are modelled by real numbers, with a dedicated type `JSNum` that
also carries the IEEE special values where NaN propagation matters.
-/

namespace MapEarth

/-! ## History Manager (src/app/layout.jsx lines 108-161)

The drawing panel keeps `history : state[]` and `historyIndex : int` as React
state.  The initialisation effect (deps `[isDrawingPanelOpen]`) runs once per
session: it seeds `history = [initialState]`, `historyIndex = 0`, defines the
closure `saveHistory` and registers it on the canvas events `object:added`,
`object:modified` and `object:removed`.

JavaScript closure semantics matter here: `saveHistory` reads the binding
`historyIndex` of the render in which the effect ran.  When the panel opens,
that render still has the initial value `-1` (the `setHistoryIndex(0)` call
inside the same effect only schedules a re-render; it does not mutate the
already-captured binding), and the effect never re-runs during the session.
The field `capturedIndex` records this captured value, so
`prev.slice(0, historyIndex + 1)` in the source is
`history.take (capturedIndex + 1)` here.  Both state setters in `saveHistory`
use functional updates, so they act on the latest `history`/`historyIndex`.

The `undo`/`redo` functions are re-created on every render and therefore read
the current values of `history` and `historyIndex`.  `canvas` is the content
currently rendered on the fabric canvas. -/

structure EditorHistory where
  history : List Nat
  historyIndex : Int
  capturedIndex : Int
  canvas : Nat
deriving DecidableEq

/-- Session start (lines 108-123): fabric canvas created with initial content
`s0`; `setHistory([initialState]); setHistoryIndex(0)`; the `saveHistory`
closure captures `historyIndex = -1` from the mounting render. -/
def openSession (s0 : Nat) : EditorHistory :=
  { history := [s0], historyIndex := 0, capturedIndex := -1, canvas := s0 }

/-- `saveHistory` (lines 114-119), fired after a committed content mutation
has put `newState` on the canvas:
`setHistory(prev => [...prev.slice(0, historyIndex + 1), state])` with the
captured `historyIndex`, and `setHistoryIndex(prev => prev + 1)`.
JavaScript `slice(0, e)` with `e = capturedIndex + 1 = 0` is `take 0`. -/
def saveHistory (st : EditorHistory) (newState : Nat) : EditorHistory :=
  { st with
    canvas := newState
    history := st.history.take (st.capturedIndex + 1).toNat ++ [newState]
    historyIndex := st.historyIndex + 1 }

/-- `undo` (lines 147-153): returns when `historyIndex <= 0`; otherwise calls
`loadFromJSON(history[historyIndex - 1], cb)`.  When the indexed slot is out
of range the argument is `undefined` and `fabric.Canvas#loadFromJSON` returns
early without invoking the callback, so neither the canvas nor
`historyIndex` changes; otherwise the snapshot is rendered and the callback
runs `setHistoryIndex(historyIndex - 1)`. -/
def undo (st : EditorHistory) : EditorHistory :=
  if st.historyIndex ≤ 0 then st
  else
    match st.history.get? (st.historyIndex - 1).toNat with
    | Option.none => st
    | Option.some snap => { st with canvas := snap, historyIndex := st.historyIndex - 1 }

/-- `redo` (lines 155-161): returns when `historyIndex >= history.length - 1`;
otherwise loads `history[historyIndex + 1]` (same `loadFromJSON` behaviour as
in `undo`). -/
def redo (st : EditorHistory) : EditorHistory :=
  if (st.history.length : Int) - 1 ≤ st.historyIndex then st
  else
    match st.history.get? (st.historyIndex + 1).toNat with
    | Option.none => st
    | Option.some snap => { st with canvas := snap, historyIndex := st.historyIndex + 1 }

/-- The spec's history-stack invariant: the cursor lies in `[0, length-1]`
and the snapshot at the cursor is the currently rendered content. -/
def historyInvariant (st : EditorHistory) : Prop :=
  0 ≤ st.historyIndex ∧ st.historyIndex ≤ (st.history.length : Int) - 1 ∧
    st.history.get? st.historyIndex.toNat = Option.some st.canvas

instance (st : EditorHistory) : Decidable (historyInvariant st) := by
  unfold historyInvariant; infer_instance

/-! ## Landmark store (src/app/layout.jsx lines 39-50) -/

/-- A stored landmark record as returned by the persistence collaborator
(`id` server-assigned; `name`, `lat`, `lng`, `drawing_data` from the save
payload).  The numeric fields carry exact rationals and the encoded raster
payload an opaque identifier: the store never computes with either. -/
structure StoredLandmark where
  id : Nat
  name : List Char
  lat : ℚ
  lng : ℚ
  drawing_data : Nat
deriving DecidableEq

/-- `addLandmark` (lines 47-49):
`set(state => ({ landmarks: [...state.landmarks, landmark] }))` — an
unconditional append to the collection. -/
def addLandmark (lm : StoredLandmark) (landmarks : List StoredLandmark) :
    List StoredLandmark :=
  landmarks ++ [lm]

/-- The `landmarks` slot of the zustand store, as a dynamically typed
JavaScript field: it is meant to hold a list of records, but the setter
stores whatever value it is handed, so the slot can also end up holding an
updater function. -/
inductive LandmarksSlot where
  | list (l : List StoredLandmark)
  | updater (f : List StoredLandmark → List StoredLandmark)

/-- `setLandmarks` (line 46): `(landmarks) => set({ landmarks })` — it
replaces the slot with its argument verbatim; it never calls the
argument. -/
def setLandmarks (v : LandmarksSlot) (_old : LandmarksSlot) : LandmarksSlot :=
  v

/-- The realtime INSERT notification handler (lines 614-616):
`setLandmarks(prev => [...prev, payload.new])`.  It passes an updater
function where `setLandmarks` expects the new list, so the slot is
overwritten with the function itself — the handler performs no append at
all. -/
def realtimeInsert (lm : StoredLandmark) (slot : LandmarksSlot) :
    LandmarksSlot :=
  setLandmarks (LandmarksSlot.updater (fun prev => prev ++ [lm])) slot

/-! ## Save path (src/app/layout.jsx lines 251-280, 442-455)

`handleSave` is the SAVE button's click handler: it validates the name, and
when the name survives trimming it exports the canvas and awaits the
persistence insert.  The button stays enabled while the insert is pending.
`pendingSaves` is model instrumentation, not a program variable: it counts
persistence calls that have been issued and have not yet resolved, so that
the suspension window of the single `await` is observable. -/

/-- JavaScript whitespace test for `String.prototype.trim`. -/
def isJSWhitespace (c : Char) : Bool :=
  c == ' ' || c == '\t' || c == '\n' || c == '\r'

/-- `name.trim()` on a name modelled as a character list. -/
def jsTrim (s : List Char) : List Char :=
  ((s.dropWhile isJSWhitespace).reverse.dropWhile isJSWhitespace).reverse

/-- Opaque model of `canvas.toDataURL('png')`: the exported payload is a
function of the canvas content only. -/
def toDataURL (content : Nat) : Nat :=
  content

/-- The payload object built in `handleSave` (lines 259-264). -/
structure LandmarkPayload where
  name : List Char
  lat : ℚ
  lng : ℚ
  drawing_data : Nat
deriving DecidableEq

/-- Editor-side state relevant to the save path: `isDrawingPanelOpen`,
`currentLat`/`currentLng` and `landmarks` from the zustand store, the local
`name` field, the fabric canvas content, and the in-flight-call counter. -/
structure EditorState where
  panelOpen : Bool
  name : List Char
  lat : ℚ
  lng : ℚ
  canvasContent : Nat
  landmarks : List StoredLandmark
  pendingSaves : Nat
deriving DecidableEq

/-- Synchronous outcome of pressing SAVE. -/
inductive SaveStart where
  | validationError
  | persistenceCallStarted (payload : LandmarkPayload)
deriving DecidableEq

/-- The synchronous prefix of `handleSave` (lines 251-270): if
`!name.trim()` it alerts (`ValidationError`) and returns with nothing
changed; otherwise it builds the payload from the exported raster and the
current coordinates and issues the persistence insert, which then suspends.
No flag disables the SAVE button while the call is pending. -/
def handleSaveStart (st : EditorState) : SaveStart × EditorState :=
  if jsTrim st.name = [] then (SaveStart.validationError, st)
  else
    (SaveStart.persistenceCallStarted
      { name := st.name, lat := st.lat, lng := st.lng,
        drawing_data := toDataURL st.canvasContent },
     { st with pendingSaves := st.pendingSaves + 1 })

/-- Resolution of the awaited insert (lines 266-280).  On success:
`addLandmark(data[0]); setDrawingPanel(false); setName('')`.  On failure the
`catch` block only logs and alerts — every piece of editor state is left as
it was. -/
def resolveSave (st : EditorState) (res : Except (List Char) StoredLandmark) :
    EditorState :=
  match res with
  | Except.error _ => { st with pendingSaves := st.pendingSaves - 1 }
  | Except.ok lm =>
      { st with
        pendingSaves := st.pendingSaves - 1
        landmarks := addLandmark lm st.landmarks
        panelOpen := false
        name := [] }

/-! ## Filters (src/app/layout.jsx lines 164-190) -/

/-- The filter buttons of the panel (line 173's `switch` discriminee). -/
inductive FilterType where
  | blur
  | grayscale
  | brightness
  | contrast
  | noFilter
deriving DecidableEq

/-- The concrete fabric filter instances pushed by `applyFilter`, with the
parameters hard-coded in the source (`Blur({blur: 0.5})`,
`Brightness({brightness: 0.2})`, `Contrast({contrast: 0.3})`). -/
inductive FilterInstance where
  | blurF (amount : ℚ)
  | grayscaleF
  | brightnessF (amount : ℚ)
  | contrastF (amount : ℚ)
deriving DecidableEq

/-- The filter list assembled by `applyFilter`'s `switch` after the
`activeObject.filters = []` reset: exactly one instance for the four filter
buttons, none for the `default` branch. -/
def filterListFor (ft : FilterType) : List FilterInstance :=
  match ft with
  | FilterType.blur => [FilterInstance.blurF (1/2)]
  | FilterType.grayscale => [FilterInstance.grayscaleF]
  | FilterType.brightness => [FilterInstance.brightnessF (1/5)]
  | FilterType.contrast => [FilterInstance.contrastF (3/10)]
  | FilterType.noFilter => []

/-- Rendered pixel buffer of a filtered object.  Modelled from the spec:
`fabric.Image#applyFilters` (the library call on line 188, outside this
repository) recomputes the rendered pixels from the object's original
unfiltered source bitmap through the current filter list; a pixel buffer is
therefore determined by that pair, and equality of pairs is pixel
identity. -/
def renderFromSource (source : Nat) (fs : List FilterInstance) :
    Nat × List FilterInstance :=
  (source, fs)

/-- A selected canvas object as the filter code sees it: its original source
bitmap, its current filter list, and its rendered pixels. -/
structure CanvasObject where
  source : Nat
  filters : List FilterInstance
  rendered : Nat × List FilterInstance
deriving DecidableEq

/-- `applyFilter(filterType)` on the active object (lines 171-189):
`activeObject.filters = []` clears the list, the `switch` pushes the single
matching filter instance, and `activeObject.applyFilters()` recomputes the
rendered pixels from the original source bitmap. -/
def applyFilter (ft : FilterType) (obj : CanvasObject) : CanvasObject :=
  { obj with
    filters := filterListFor ft
    rendered := renderFromSource obj.source (filterListFor ft) }

/-! ## Geodesic projection (src/app/layout.jsx lines 479-489, 504-530, 573-582
and src/unnamed/part_002 lines 42-52)

JavaScript numbers in the pick handler are modelled by `JSNum`: an exact real
together with the IEEE special values reachable in this pipeline.  The only
place a special value can arise from real-number inputs is `y / r` when
`r = 0` (`0/0` is NaN, `a/0` with `a ≠ 0` is a signed infinity), after which
`Math.acos` turns every non-finite input into NaN and NaN propagates through
the remaining arithmetic. -/

inductive JSNum where
  | num (x : ℝ)
  | nan
  | posInf
  | negInf

/-- IEEE multiplication on the values reachable here: finite times finite is
exact, NaN propagates, an infinity times a finite value follows the sign of
the finite factor and is NaN when that factor is zero, and infinities
multiply by the rule of signs. -/
noncomputable def jsMul : JSNum → JSNum → JSNum
  | JSNum.num a, JSNum.num b => JSNum.num (a * b)
  | JSNum.nan, _ => JSNum.nan
  | _, JSNum.nan => JSNum.nan
  | JSNum.posInf, JSNum.num b =>
      if b = 0 then JSNum.nan else if 0 < b then JSNum.posInf else JSNum.negInf
  | JSNum.negInf, JSNum.num b =>
      if b = 0 then JSNum.nan else if 0 < b then JSNum.negInf else JSNum.posInf
  | JSNum.num a, JSNum.posInf =>
      if a = 0 then JSNum.nan else if 0 < a then JSNum.posInf else JSNum.negInf
  | JSNum.num a, JSNum.negInf =>
      if a = 0 then JSNum.nan else if 0 < a then JSNum.negInf else JSNum.posInf
  | JSNum.posInf, JSNum.posInf => JSNum.posInf
  | JSNum.posInf, JSNum.negInf => JSNum.negInf
  | JSNum.negInf, JSNum.posInf => JSNum.negInf
  | JSNum.negInf, JSNum.negInf => JSNum.posInf

/-- IEEE subtraction on the values reachable here. -/
noncomputable def jsSub : JSNum → JSNum → JSNum
  | JSNum.num a, JSNum.num b => JSNum.num (a - b)
  | JSNum.nan, _ => JSNum.nan
  | _, JSNum.nan => JSNum.nan
  | JSNum.posInf, JSNum.posInf => JSNum.nan
  | JSNum.negInf, JSNum.negInf => JSNum.nan
  | JSNum.posInf, _ => JSNum.posInf
  | JSNum.negInf, _ => JSNum.negInf
  | JSNum.num _, JSNum.posInf => JSNum.negInf
  | JSNum.num _, JSNum.negInf => JSNum.posInf

/-- IEEE division on the values reachable here: `0/0` is NaN, a nonzero
finite numerator over zero is a signed infinity (real inputs carry no signed
zero, so the divisor zero counts as `+0`), and a finite numerator over an
infinity is zero. -/
noncomputable def jsDiv : JSNum → JSNum → JSNum
  | JSNum.num a, JSNum.num b =>
      if b = 0 then
        if a = 0 then JSNum.nan else if 0 < a then JSNum.posInf else JSNum.negInf
      else JSNum.num (a / b)
  | JSNum.nan, _ => JSNum.nan
  | _, JSNum.nan => JSNum.nan
  | JSNum.posInf, JSNum.num b => if 0 ≤ b then JSNum.posInf else JSNum.negInf
  | JSNum.negInf, JSNum.num b => if 0 ≤ b then JSNum.negInf else JSNum.posInf
  | JSNum.num _, JSNum.posInf => JSNum.num 0
  | JSNum.num _, JSNum.negInf => JSNum.num 0
  | JSNum.posInf, JSNum.posInf => JSNum.nan
  | JSNum.posInf, JSNum.negInf => JSNum.nan
  | JSNum.negInf, JSNum.posInf => JSNum.nan
  | JSNum.negInf, JSNum.negInf => JSNum.nan

/-- `Math.acos`: NaN outside `[-1, 1]` and on every non-finite input. -/
noncomputable def jsAcos : JSNum → JSNum
  | JSNum.num a => if a < -1 ∨ 1 < a then JSNum.nan else JSNum.num (Real.arccos a)
  | _ => JSNum.nan

/-- `Math.atan2(y, x)` on finite reals: the argument of the complex number
`x + y·i`, which lies in `(-π, π]` with `atan2(0, 0) = 0` — exactly the
JavaScript behaviour on (unsigned) real inputs. -/
noncomputable def atan2 (y x : ℝ) : ℝ :=
  Complex.arg ⟨x, y⟩

/-- Truncation toward zero, the quotient underlying the JavaScript `%`
remainder. -/
noncomputable def jsTrunc (x : ℝ) : Int :=
  if 0 ≤ x then ⌊x⌋ else ⌈x⌉

/-- JavaScript remainder `a % b` on finite reals with `b ≠ 0`: it has the
sign of the dividend, `a - b * trunc(a / b)`. -/
noncomputable def jsRem (a b : ℝ) : ℝ :=
  a - b * (jsTrunc (a / b) : ℝ)

/-- A 3-D point, as the `point` of a pick event or a computed sphere
position. -/
structure Cartesian3 where
  x : ℝ
  y : ℝ
  z : ℝ

/-- `geoToCartesian` as inlined at src/app/layout.jsx lines 574-582 (sprite
placement) and 507-513 (graticule): `φ = (90 - lat)·π/180`,
`θ = lng·π/180`, `(r sinφ cosθ, r cosφ, r sinφ sinθ)`. -/
noncomputable def geoToCartesian (lat lng radius : ℝ) : Cartesian3 :=
  { x := radius * Real.sin ((90 - lat) * Real.pi / 180) *
          Real.cos (lng * Real.pi / 180)
    y := radius * Real.cos ((90 - lat) * Real.pi / 180)
    z := radius * Real.sin ((90 - lat) * Real.pi / 180) *
          Real.sin (lng * Real.pi / 180) }

/-- `Earth.handleClick` of the main page variant (src/app/layout.jsx lines
479-489): `r = sqrt(x²+y²+z²)`, `lat = 90 - acos(y/r)·180/π`,
`lng = atan2(z,x)·180/π % 360` followed by the two normalisation branches,
then `setDrawingPanel(true, lat, lng)`.  The latitude travels through
`JSNum` because `y/r` is NaN at the sphere center; the longitude pipeline
(`atan2`, `%`, comparisons) never leaves the finite reals. -/
noncomputable def handleClickMain (p : Cartesian3) : JSNum × ℝ :=
  let r : ℝ := Real.sqrt (p.x * p.x + p.y * p.y + p.z * p.z)
  let lat : JSNum :=
    jsSub (JSNum.num 90)
      (jsDiv (jsMul (jsAcos (jsDiv (JSNum.num p.y) (JSNum.num r)))
        (JSNum.num 180)) (JSNum.num Real.pi))
  let lng0 : ℝ := jsRem (atan2 p.z p.x * 180 / Real.pi) 360
  let lng1 : ℝ := if lng0 < -180 then lng0 + 360 else lng0
  let lng2 : ℝ := if 180 < lng1 then lng1 - 360 else lng1
  (lat, lng2)

/-- `Earth.handleClick` of the second page variant (src/unnamed/part_002
lines 42-52), translated independently; its body is line-for-line the same
pick-to-geo computation as the main variant's. -/
noncomputable def handleClickVariant (p : Cartesian3) : JSNum × ℝ :=
  let r : ℝ := Real.sqrt (p.x * p.x + p.y * p.y + p.z * p.z)
  let lat : JSNum :=
    jsSub (JSNum.num 90)
      (jsDiv (jsMul (jsAcos (jsDiv (JSNum.num p.y) (JSNum.num r)))
        (JSNum.num 180)) (JSNum.num Real.pi))
  let lng0 : ℝ := jsRem (atan2 p.z p.x * 180 / Real.pi) 360
  let lng1 : ℝ := if lng0 < -180 then lng0 + 360 else lng0
  let lng2 : ℝ := if 180 < lng1 then lng1 - 360 else lng1
  (lat, lng2)

/-! ## Helper lemmas -/

/-- The JavaScript remainder is the identity on dividends already inside
`(-360, 360)`, the situation of the `% 360` in the pick handlers. -/
theorem jsRem_eq_self {a : ℝ} (h1 : -360 < a) (h2 : a < 360) : jsRem a 360 = a := by
  unfold jsRem jsTrunc
  rcases le_or_lt 0 (a / 360) with h | h
  · rw [if_pos h]
    have hz : ⌊a / 360⌋ = 0 := by
      rw [Int.floor_eq_zero_iff]
      exact ⟨h, by rw [div_lt_one (by norm_num : (0:ℝ) < 360)]; exact h2⟩
    rw [hz]
    push_cast
    ring
  · rw [if_neg (not_le.mpr h)]
    have hz : ⌈a / 360⌉ = 0 := by
      rw [Int.ceil_eq_zero_iff]
      refine ⟨?_, h.le⟩
      rw [lt_div_iff₀ (show (0:ℝ) < 360 by norm_num)]
      linarith
    rw [hz]
    push_cast
    ring

/-- Exact real round trip: the main pick handler applied to the sphere
position of `(lat, lng)` at radius 5 recovers `(lat, lng)` exactly, for
latitudes strictly between the poles and longitudes in `(-180, 180]`. -/
theorem roundTripExact (lat lng : ℝ) (h1 : -90 < lat) (h2 : lat < 90)
    (h3 : -180 < lng) (h4 : lng ≤ 180) :
    handleClickMain (geoToCartesian lat lng 5) = (JSNum.num lat, lng) := by
  have hπ : (0:ℝ) < Real.pi := Real.pi_pos
  simp only [handleClickMain, geoToCartesian, Prod.mk.injEq]
  set A : ℝ := (90 - lat) * Real.pi / 180 with hA
  set B : ℝ := lng * Real.pi / 180 with hB
  have hA0 : 0 < A := by
    rw [hA]; exact div_pos (mul_pos (by linarith) hπ) (by norm_num)
  have hAπ : A < Real.pi := by
    rw [hA, div_lt_iff₀ (show (0:ℝ) < 180 by norm_num)]; nlinarith
  have hBlo : -Real.pi < B := by
    rw [hB]; nlinarith [mul_pos (show (0:ℝ) < lng + 180 by linarith) hπ]
  have hBhi : B ≤ Real.pi := by
    rw [hB]; nlinarith [mul_nonneg (show (0:ℝ) ≤ 180 - lng by linarith) hπ.le]
  have hsinA : 0 < Real.sin A := Real.sin_pos_of_pos_of_lt_pi hA0 hAπ
  constructor
  · have hS : 5 * Real.sin A * Real.cos B * (5 * Real.sin A * Real.cos B) +
        5 * Real.cos A * (5 * Real.cos A) +
        5 * Real.sin A * Real.sin B * (5 * Real.sin A * Real.sin B) = 25 := by
      have p1 := Real.sin_sq_add_cos_sq A
      have p2 := Real.sin_sq_add_cos_sq B
      linear_combination (25 * Real.sin A ^ 2) * p2 + 25 * p1
    rw [hS, show (25:ℝ) = 5 ^ 2 by norm_num, Real.sqrt_sq (by norm_num : (0:ℝ) ≤ 5)]
    have hdiv1 : jsDiv (JSNum.num (5 * Real.cos A)) (JSNum.num 5) =
        JSNum.num (Real.cos A) := by
      simp only [jsDiv]
      rw [if_neg (by norm_num : ¬ (5:ℝ) = 0),
        mul_div_cancel_left₀ (Real.cos A) (show (5:ℝ) ≠ 0 by norm_num)]
    rw [hdiv1]
    have hc1 : ¬ (Real.cos A < -1 ∨ 1 < Real.cos A) := by
      push_neg
      exact ⟨Real.neg_one_le_cos A, Real.cos_le_one A⟩
    simp only [jsAcos]
    rw [if_neg hc1, Real.arccos_cos hA0.le hAπ.le]
    simp only [jsMul, jsDiv]
    rw [if_neg Real.pi_ne_zero]
    simp only [jsSub, JSNum.num.injEq]
    rw [hA]
    field_simp
  · have hmk : (⟨5 * Real.sin A * Real.cos B, 5 * Real.sin A * Real.sin B⟩ : ℂ) =
        ((5 * Real.sin A : ℝ) : ℂ) *
          (↑(Real.cos B) + ↑(Real.sin B) * Complex.I) := by
      rw [Complex.mk_eq_add_mul_I]
      push_cast
      ring
    have hatan : atan2 (5 * Real.sin A * Real.sin B) (5 * Real.sin A * Real.cos B)
        = B := by
      unfold atan2
      rw [hmk, Complex.ofReal_cos, Complex.ofReal_sin]
      exact Complex.arg_mul_cos_add_sin_mul_I (mul_pos (by norm_num) hsinA)
        ⟨hBlo, hBhi⟩
    rw [hatan]
    have hBlng : B * 180 / Real.pi = lng := by
      rw [hB]; field_simp
    rw [hBlng, jsRem_eq_self (by linarith) (by linarith),
      if_neg (not_lt.mpr h3.le), if_neg (not_lt.mpr h4)]

/-! ## Concrete example states -/

/-- A landmark record used as a concrete duplicate-insert input. -/
def dupRecord : StoredLandmark :=
  { id := 1, name := ['A'], lat := 0, lng := 0, drawing_data := 5 }

/-- An open editor with a valid name and no save in flight. -/
def readyState : EditorState :=
  { panelOpen := true, name := ['A'], lat := 1, lng := 2, canvasContent := 7,
    landmarks := [], pendingSaves := 0 }

/-- An open editor with a valid name and one save suspended. -/
def pendingState : EditorState :=
  { panelOpen := true, name := ['A'], lat := 1, lng := 2, canvasContent := 7,
    landmarks := [], pendingSaves := 1 }

/-- An open editor whose name is three spaces. -/
def blankNameState : EditorState :=
  { panelOpen := true, name := [' ', ' ', ' '], lat := 3, lng := 4,
    canvasContent := 9, landmarks := [], pendingSaves := 0 }

/-- An open editor whose save is about to fail. -/
def failState : EditorState :=
  { panelOpen := true, name := ['B'], lat := 5, lng := 6, canvasContent := 11,
    landmarks := [], pendingSaves := 1 }

/-! ## Claim theorems -/

/-- Claim C1 (code_bug): the claim says every committed mutation truncates
the history to `[0, cursor]`, appends the new snapshot and moves the cursor
to the new last index, so that `E1, E2, E3, undo, undo, redo` renders the
state after `E1`.  The code diverges: `saveHistory`'s stale captured cursor
makes every snapshot truncate the whole stack, so after `E1, E2, E3` the
stack is `[E3]` with cursor `3`; both `undo` calls index an undefined slot
and change nothing, `redo`'s guard fires, and the canvas still shows `E3`,
not `E1`. -/
theorem c1_history_linearity_divergence :
    (saveHistory (saveHistory (saveHistory (openSession 0) 1) 2) 3).history = [3] ∧
    (saveHistory (saveHistory (saveHistory (openSession 0) 1) 2) 3).historyIndex = 3 ∧
    (redo (undo (undo
      (saveHistory (saveHistory (saveHistory (openSession 0) 1) 2) 3)))).canvas = 3 ∧
    (redo (undo (undo
      (saveHistory (saveHistory (saveHistory (openSession 0) 1) 2) 3)))).canvas ≠ 1 := by
  decide

/-- Claim C2 (code_bug): the claimed invariant — cursor in `[0, length-1]`
and the snapshot at the cursor equal to the rendered content — holds right
after the session opens (one snapshot, cursor `0`) but is already violated
by the first committed mutation: the code leaves cursor `1` on a length-1
stack. -/
theorem c2_history_invariant_divergence :
    historyInvariant (openSession 0) ∧
    ¬ historyInvariant (saveHistory (openSession 0) 1) := by
  decide

/-- Claim C3 (confirmed): for latitudes in `(-90, 90)` and longitudes in
`(-180, 180]`, converting geo to Cartesian at radius 5 and back through the
click handler's Cartesian-to-geo pipeline reproduces the latitude and the
longitude within `1e-6` degrees (in fact exactly, over the reals). -/
theorem c3_projection_round_trip (lat lng : ℝ) (h1 : -90 < lat) (h2 : lat < 90)
    (h3 : -180 < lng) (h4 : lng ≤ 180) :
    ∃ lat2 lng2 : ℝ,
      handleClickMain (geoToCartesian lat lng 5) = (JSNum.num lat2, lng2) ∧
      |lat2 - lat| ≤ 1e-6 ∧ |lng2 - lng| ≤ 1e-6 :=
  ⟨lat, lng, roundTripExact lat lng h1 h2 h3 h4,
   by rw [sub_self, abs_zero]; norm_num,
   by rw [sub_self, abs_zero]; norm_num⟩

/-- Witness for C3 at `lat = 33`, `lng = 44`. -/
theorem c3_projection_round_trip_witness :
    ((-90:ℝ) < 33 ∧ (33:ℝ) < 90 ∧ (-180:ℝ) < 44 ∧ (44:ℝ) ≤ 180) ∧
    (∃ lat2 lng2 : ℝ,
      handleClickMain (geoToCartesian 33 44 5) = (JSNum.num lat2, lng2) ∧
      |lat2 - 33| ≤ 1e-6 ∧ |lng2 - 44| ≤ 1e-6) :=
  ⟨⟨by norm_num, by norm_num, by norm_num, by norm_num⟩,
   c3_projection_round_trip 33 44 (by norm_num) (by norm_num) (by norm_num)
     (by norm_num)⟩

/-- Claim C4 (corrected), counterexample: inserting a record whose id is
already present does not leave the collection unchanged — `addLandmark` is a
plain append, so the same record appears twice. -/
theorem c4_duplicate_insert_counterexample :
    addLandmark dupRecord [dupRecord] = [dupRecord, dupRecord] ∧
    addLandmark dupRecord [dupRecord] ≠ [dupRecord] := by
  decide

/-- Claim C4 (corrected), amended: no idempotent id-keyed merge exists on
either path.  The save path's `addLandmark` appends unconditionally, so
inserting the same record twice yields two copies and never equals a single
insert; the realtime insert handler hands an updater function to a setter
that stores its argument verbatim, so after a notification the slot no
longer holds a record list at all — in particular it is not the unchanged
collection. -/
theorem c4_no_idempotent_merge_amended :
    (∀ (l : List StoredLandmark) (lm : StoredLandmark),
      addLandmark lm (addLandmark lm l) = l ++ [lm, lm] ∧
      addLandmark lm (addLandmark lm l) ≠ addLandmark lm l) ∧
    (∀ (lm : StoredLandmark) (slot : LandmarksSlot) (l : List StoredLandmark),
      realtimeInsert lm slot ≠ LandmarksSlot.list l) := by
  constructor
  · intro l lm
    refine ⟨by simp [addLandmark], fun h => ?_⟩
    have hlen := congrArg List.length h
    simp [addLandmark] at hlen
  · intro lm slot l h
    simp only [realtimeInsert, setLandmarks] at h
    exact LandmarksSlot.noConfusion h

/-- Claim C5 (corrected), counterexample: from an open editor with a valid
name, a save click suspends one persistence call, and a second save click
while the first is still pending starts a second persistence call — the
claimed Saving-state lockout does not exist. -/
theorem c5_double_save_counterexample :
    (handleSaveStart readyState).2.pendingSaves = 1 ∧
    (handleSaveStart (handleSaveStart readyState).2).1 =
      SaveStart.persistenceCallStarted
        { name := ['A'], lat := 1, lng := 2, drawing_data := 7 } ∧
    (handleSaveStart (handleSaveStart readyState).2).2.pendingSaves = 2 := by
  decide

/-- Claim C5 (corrected), amended: while a save is suspended, the editor
still accepts save triggers — any save request with a non-blank name starts
a further persistence call, leaving at least two in flight. -/
theorem c5_no_saving_guard_amended (st : EditorState)
    (hpend : 1 ≤ st.pendingSaves) (hname : jsTrim st.name ≠ []) :
    (handleSaveStart st).1 = SaveStart.persistenceCallStarted
      { name := st.name, lat := st.lat, lng := st.lng,
        drawing_data := toDataURL st.canvasContent } ∧
    2 ≤ (handleSaveStart st).2.pendingSaves := by
  unfold handleSaveStart
  rw [if_neg hname]
  refine ⟨rfl, ?_⟩
  show 2 ≤ st.pendingSaves + 1
  omega

/-- Witness for the amended C5 at a concrete suspended state. -/
theorem c5_no_saving_guard_amended_witness :
    (1 ≤ pendingState.pendingSaves ∧ jsTrim pendingState.name ≠ []) ∧
    ((handleSaveStart pendingState).1 = SaveStart.persistenceCallStarted
      { name := pendingState.name, lat := pendingState.lat,
        lng := pendingState.lng,
        drawing_data := toDataURL pendingState.canvasContent } ∧
     2 ≤ (handleSaveStart pendingState).2.pendingSaves) :=
  ⟨⟨by decide, by decide⟩,
   c5_no_saving_guard_amended pendingState (by decide) (by decide)⟩

/-- Claim C6 (corrected), counterexample: at the sphere center the
conversion does not fail with a guarded typed error — it produces an
undefined numeric value: `0/0` is NaN and propagates, so the computed
latitude is NaN. -/
theorem c6_center_pick_counterexample :
    (handleClickMain { x := 0, y := 0, z := 0 }).1 = JSNum.nan := by
  simp only [handleClickMain]
  rw [show Real.sqrt ((0:ℝ) * 0 + 0 * 0 + 0 * 0) = 0 by
    rw [show ((0:ℝ) * 0 + 0 * 0 + 0 * 0) = 0 by norm_num, Real.sqrt_zero]]
  simp [jsDiv, jsAcos, jsMul, jsSub]

/-- Claim C6 (corrected), amended: for the point at the sphere center the
click handler performs no guarded failure: it computes latitude NaN (from
`acos(0/0)`) and longitude `0` (from `atan2(0,0) = 0`) and hands both to the
panel. -/
theorem c6_center_pick_amended :
    handleClickMain { x := 0, y := 0, z := 0 } = (JSNum.nan, 0) := by
  simp only [handleClickMain, Prod.mk.injEq]
  constructor
  · rw [show Real.sqrt ((0:ℝ) * 0 + 0 * 0 + 0 * 0) = 0 by
      rw [show ((0:ℝ) * 0 + 0 * 0 + 0 * 0) = 0 by norm_num, Real.sqrt_zero]]
    simp [jsDiv, jsAcos, jsMul, jsSub]
  · have h00 : atan2 0 0 = 0 := by
      unfold atan2
      rw [show (⟨0, 0⟩ : ℂ) = 0 by simp [Complex.ext_iff], Complex.arg_zero]
    rw [h00]
    norm_num [jsRem, jsTrunc]

/-- Claim C7 (confirmed): a save with a name that trims to empty yields the
validation failure and leaves every piece of editor state — panel flag,
name, canvas, landmark collection — untouched, and no persistence call is
issued. -/
theorem c7_whitespace_name_validation (st : EditorState)
    (h : jsTrim st.name = []) :
    handleSaveStart st = (SaveStart.validationError, st) := by
  unfold handleSaveStart
  rw [if_pos h]

/-- Witness for C7 with the three-space name. -/
theorem c7_whitespace_name_validation_witness :
    jsTrim blankNameState.name = [] ∧
    handleSaveStart blankNameState = (SaveStart.validationError, blankNameState) :=
  ⟨by decide, c7_whitespace_name_validation blankNameState (by decide)⟩

/-- Claim C8 (confirmed): when the persistence collaborator reports a
failure, the controller stays open and the name, canvas content, landmark
collection and coordinates are exactly as before the attempt, so the user
can retry without re-drawing. -/
theorem c8_save_failure_preserves_state (st : EditorState) (msg : List Char)
    (hopen : st.panelOpen = true) :
    (resolveSave st (Except.error msg)).panelOpen = true ∧
    (resolveSave st (Except.error msg)).name = st.name ∧
    (resolveSave st (Except.error msg)).canvasContent = st.canvasContent ∧
    (resolveSave st (Except.error msg)).landmarks = st.landmarks ∧
    (resolveSave st (Except.error msg)).lat = st.lat ∧
    (resolveSave st (Except.error msg)).lng = st.lng :=
  ⟨hopen, rfl, rfl, rfl, rfl, rfl⟩

/-- Witness for C8 at a concrete open state and error message. -/
theorem c8_save_failure_preserves_state_witness :
    failState.panelOpen = true ∧
    ((resolveSave failState (Except.error ['e'])).panelOpen = true ∧
     (resolveSave failState (Except.error ['e'])).name = failState.name ∧
     (resolveSave failState (Except.error ['e'])).canvasContent =
       failState.canvasContent ∧
     (resolveSave failState (Except.error ['e'])).landmarks =
       failState.landmarks ∧
     (resolveSave failState (Except.error ['e'])).lat = failState.lat ∧
     (resolveSave failState (Except.error ['e'])).lng = failState.lng) :=
  ⟨rfl, c8_save_failure_preserves_state failState ['e'] rfl⟩

/-- Claim C9 (confirmed): applying a filter action replaces the filter list
wholesale and recomputes the rendered pixels from the original source
bitmap, so applying the same filter twice in a row is pixel-identical to —
indeed equal to — applying it once. -/
theorem c9_filter_idempotent (ft : FilterType) (obj : CanvasObject) :
    applyFilter ft (applyFilter ft obj) = applyFilter ft obj ∧
    (applyFilter ft (applyFilter ft obj)).rendered =
      (applyFilter ft obj).rendered :=
  ⟨rfl, rfl⟩

/-- Claim C10 (confirmed): the two page variants' click handlers compute
identical (latitude, longitude) outputs on every pick point with nonzero
radius (their pick-to-geo code is line-for-line the same). -/
theorem c10_variant_click_handlers_agree (p : Cartesian3)
    (h : Real.sqrt (p.x * p.x + p.y * p.y + p.z * p.z) ≠ 0) :
    handleClickMain p = handleClickVariant p :=
  rfl

/-- Witness for C10 at the north-pole point `(0, 5, 0)`. -/
theorem c10_variant_click_handlers_agree_witness :
    Real.sqrt ((0:ℝ) * 0 + 5 * 5 + 0 * 0) ≠ 0 ∧
    handleClickMain { x := 0, y := 5, z := 0 } =
      handleClickVariant { x := 0, y := 5, z := 0 } := by
  have h : Real.sqrt ((0:ℝ) * 0 + 5 * 5 + 0 * 0) ≠ 0 := by
    rw [show ((0:ℝ) * 0 + 5 * 5 + 0 * 0) = 25 by norm_num,
      show (25:ℝ) = 5 ^ 2 by norm_num, Real.sqrt_sq (by norm_num : (0:ℝ) ≤ 5)]
    norm_num
  exact ⟨h, c10_variant_click_handlers_agree { x := 0, y := 5, z := 0 } h⟩

end MapEarth
